import Mathlib

/-
  Verification development for the STEB.IO backend core
  (src/backend/models.js: Express handlers plus in-memory models).

  The JavaScript handlers are embedded as pure Lean functions over an
  explicit server state.  JavaScript objects become structures, the
  in-memory arrays become lists, and an endpoint handler becomes a
  function from the state and the request fields to an ApiResult and
  a possibly updated state.  JavaScript number values that the claims
  treat exactly (prices, percents) are embedded as rationals; the
  IEEE-754 specific computation toFixed is kept abstract as a function
  parameter where it occurs.  HTTP routing glue (header parsing,
  parseInt of path parameters) is outside the embedded core: handlers
  receive the already extracted token and numeric ids.
-/

/-- Result of a request handler: a success payload, an HTTP error with
status code and error message (the body is the message string), or an
uncaught exception (JavaScript TypeError propagating out of the handler). -/
inductive ApiResult (α : Type) where
  | ok : α → ApiResult α
  | err : Nat → String → ApiResult α
  | crash : ApiResult α
deriving DecidableEq, Repr

/-- User record (models.js class User). The credential is stored as the
salt:hash string; its contents are only ever consumed by the abstract
password verifier. -/
structure User where
  id : Nat
  email : String
  passwordHash : String
  name : String
  isSeller : Bool
  referralCode : String
deriving DecidableEq, Repr

/-- Store record (models.js class Store). -/
structure Store where
  id : Nat
  ownerId : Nat
  name : String
  description : String
  category : String
  bannerImage : String
deriving DecidableEq, Repr

/-- A deliverable entry as it appears on a product or an order
(models.js: array of plain objects with a type tag and details).
licenseKeysSpec models a license_keys spec whose details.keys is an
array; licenseKey models an allocated key object, whose key field is
none when the JavaScript value is undefined (shift on an empty array);
passthrough models every other entry (file, role, invite, or a
license_keys entry whose details.keys is not an array), whose details
payload the checkout never touches. -/
inductive Deliv where
  | licenseKeysSpec : List String → Deliv
  | licenseKey : Option String → Deliv
  | passthrough : String → Deliv
deriving DecidableEq, Repr

/-- Product record (models.js class Product). price and affiliatePercent
are JavaScript numbers, embedded as rationals. -/
structure Product where
  id : Nat
  storeId : Nat
  title : String
  description : String
  price : Rat
  type : String
  billingInterval : Option String
  trialDays : Option Nat
  deliverables : List Deliv
  affiliatePercent : Rat
deriving DecidableEq, Repr

/-- A calendar timestamp: the year, month (1-12) and day (1-31) fields
of a JavaScript Date, plus the time of day (which setMonth and
setFullYear never change), kept abstract as a number. -/
structure DateTime where
  year : Int
  month : Nat
  day : Nat
  tod : Nat
deriving DecidableEq, Repr

/-- Order record (models.js class Order). -/
structure Order where
  id : Nat
  userId : Nat
  productId : Nat
  price : Rat
  status : String
  nextBillingAt : Option DateTime
  endedAt : Option DateTime
  deliverables : List Deliv
  affiliateReferrerId : Option Nat
  affiliateCommission : Rat
deriving DecidableEq, Repr

/-- Affiliate referral record (models.js class AffiliateReferral). -/
structure AffiliateReferral where
  id : Nat
  referrerId : Nat
  referredUserId : Nat
deriving DecidableEq, Repr

/-- The in-memory collections of the backend, together with the id
counters of the models (idGenerator closures in models.js). The session
table maps tokens to user ids. -/
structure ServerState where
  users : List User
  stores : List Store
  products : List Product
  orders : List Order
  referrals : List AffiliateReferral
  sessions : List (String × Nat)
  nextStoreId : Nat
  nextProductId : Nat
  nextOrderId : Nat
  nextReferralId : Nat
deriving DecidableEq, Repr

/-- JavaScript x || d for a string-valued field: x is undefined (none)
or falsy (the empty string) gives d, otherwise the value of x. -/
def jsOrStr (x : Option String) (d : String) : String :=
  match x with
  | none => d
  | some s => if s = "" then d else s

/-- JavaScript truthiness of an optional string: false for undefined
and for the empty string. -/
def jsTruthyStr (x : Option String) : Bool :=
  match x with
  | none => false
  | some s => s ≠ ""

/-- JavaScript truthiness of an optional number: false for undefined
and for 0. -/
def jsTruthyNum (x : Option Rat) : Bool :=
  match x with
  | none => false
  | some q => q ≠ 0

/-- Product.findById (models.js): first product with the given id. -/
def findProduct (products : List Product) (pid : Nat) : Option Product :=
  products.find? (fun p => p.id == pid)

/-- Store.findById (models.js). -/
def findStore (stores : List Store) (sid : Nat) : Option Store :=
  stores.find? (fun s => s.id == sid)

/-- Order.findById (models.js). -/
def findOrder (orders : List Order) (oid : Nat) : Option Order :=
  orders.find? (fun o => o.id == oid)

/-- User.findById (models.js). -/
def findUserById (users : List User) (uid : Nat) : Option User :=
  users.find? (fun u => u.id == uid)

/-- User.findByEmail (models.js). -/
def findUserByEmail (users : List User) (email : String) : Option User :=
  users.find? (fun u => u.email == email)

/-- User._data.find on referralCode (server handlers). -/
def findUserByReferralCode (users : List User) (code : String) : Option User :=
  users.find? (fun u => u.referralCode == code)

/-- sessions[token]: lookup of a token in the session table. -/
def findSession (sessions : List (String × Nat)) (token : String) :
    Option (String × Nat) :=
  sessions.find? (fun e => e.1 == token)

/-- Gregorian leap-year rule used by the JavaScript Date calendar. -/
def isLeapYear (y : Int) : Bool :=
  (y % 4 == 0 && y % 100 != 0) || y % 400 == 0

/-- Number of days of month m (1-12) of year y in the proleptic
Gregorian calendar of JavaScript Date. -/
def daysInMonth (y : Int) (m : Nat) : Nat :=
  match m with
  | 1 => 31
  | 2 => if isLeapYear y then 29 else 28
  | 3 => 31
  | 4 => 30
  | 5 => 31
  | 6 => 30
  | 7 => 31
  | 8 => 31
  | 9 => 30
  | 10 => 31
  | 11 => 30
  | 12 => 31
  | _ => 0

/-- The date fields are a real calendar date. -/
def validDate (d : DateTime) : Bool :=
  1 ≤ d.month && d.month ≤ 12 && 1 ≤ d.day && d.day ≤ daysInMonth d.year d.month

/-- Month following the month of d, and its year (wrapping December). -/
def monthSucc (d : DateTime) : Nat :=
  if d.month = 12 then 1 else d.month + 1

/-- Year of the month following the month of d. -/
def yearOfMonthSucc (d : DateTime) : Int :=
  if d.month = 12 then d.year + 1 else d.year

/-- nextBillingAt.setMonth(nextBillingAt.getMonth() + 1) on a valid
date: the month field is incremented (wrapping December into January of
the next year) and the day field is kept; when the kept day exceeds the
length of the target month, JavaScript Date normalization carries the
excess days into the following month (for a valid input the excess is
at most 3, so it never cascades further). The time of day is kept. -/
def addOneMonth (d : DateTime) : DateTime :=
  let y := yearOfMonthSucc d
  let m := monthSucc d
  let dim := daysInMonth y m
  if d.day ≤ dim then ⟨y, m, d.day, d.tod⟩
  else if m = 12 then ⟨y + 1, 1, d.day - dim, d.tod⟩
  else ⟨y, m + 1, d.day - dim, d.tod⟩

/-- nextBillingAt.setFullYear(nextBillingAt.getFullYear() + 1) on a
valid date: the year is incremented, month and day kept; Feb 29 in a
non-leap target year normalizes to Mar 1. The time of day is kept. -/
def addOneYear (d : DateTime) : DateTime :=
  let y := d.year + 1
  let dim := daysInMonth y d.month
  if d.day ≤ dim then ⟨y, d.month, d.day, d.tod⟩
  else ⟨y, d.month + 1, d.day - dim, d.tod⟩

/-- The affiliate-attribution block of POST /api/checkout
(models.js lines 352-368): when a truthy referralCode is supplied and
resolves to a user other than the buyer, that user is the attributed
referrer; otherwise there is none. -/
def attributedReferrer (users : List User) (currentUserId : Nat)
    (referralCode : Option String) : Option User :=
  match referralCode with
  | none => none
  | some code =>
    if code = "" then none
    else
      match findUserByReferralCode users code with
      | none => none
      | some r => if r.id = currentUserId then none else some r

/-- The nextBillingAt computation of POST /api/checkout (models.js
lines 370-380): null unless the product is a subscription; for a
subscription, now advanced by one month or one year per the billing
interval, and now itself when the interval is neither value. -/
def nextBilling (product : Product) (now : DateTime) : Option DateTime :=
  if product.type = "subscription" then
    if product.billingInterval = some "monthly" then some (addOneMonth now)
    else if product.billingInterval = some "yearly" then some (addOneYear now)
    else some now
  else none

/-- One step of the deliverable copy of POST /api/checkout (models.js
lines 382-389): a license_keys spec with an array pool yields an
allocated license_key object holding d.details.keys.shift(), which is
the first key, or undefined (none) when the pool is empty; every other
entry is returned unchanged. -/
def allocOne : Deliv → Deliv
  | .licenseKeysSpec keys => .licenseKey keys.head?
  | d => d

/-- The mutation that keys.shift() leaves on the product pool: the pool
loses its first element (an empty pool stays empty). -/
def popOne : Deliv → Deliv
  | .licenseKeysSpec keys => .licenseKeysSpec keys.tail
  | d => d

/-- POST /api/checkout (models.js lines 346-403), after requireAuth has
resolved the current user. cfn is the commission computation
(price, affiliatePercent) to parseFloat((price * (percent / 100)).toFixed(2)),
kept abstract because it is IEEE-754 specific; it is only invoked when a
referrer is attributed, the commission being the number 0 otherwise. -/
def checkout (cfn : Rat → Rat → Rat) (st : ServerState)
    (currentUserId : Nat) (productId : Nat) (referralCode : Option String)
    (now : DateTime) : ApiResult (ServerState × Order) :=
  match findProduct st.products productId with
  | none => .err 404 "Product not found"
  | some product =>
    let attributed := attributedReferrer st.users currentUserId referralCode
    let referrerId : Option Nat := attributed.map (fun r => r.id)
    let commissionAmount : Rat :=
      match attributed with
      | some _ => cfn product.price product.affiliatePercent
      | none => 0
    let referrals2 : List AffiliateReferral :=
      match attributed with
      | some r => st.referrals ++ [⟨st.nextReferralId, r.id, currentUserId⟩]
      | none => st.referrals
    let nextReferralId2 : Nat :=
      match attributed with
      | some _ => st.nextReferralId + 1
      | none => st.nextReferralId
    let nextBillingAt := nextBilling product now
    let deliverables := product.deliverables.map allocOne
    let product2 : Product :=
      { product with deliverables := product.deliverables.map popOne }
    let products2 :=
      st.products.map (fun p => if p.id == product.id then product2 else p)
    let order : Order :=
      ⟨st.nextOrderId, currentUserId, product.id, product.price, "active",
        nextBillingAt, none, deliverables, referrerId, commissionAmount⟩
    .ok ({ st with
            products := products2,
            orders := st.orders ++ [order],
            referrals := referrals2,
            nextOrderId := st.nextOrderId + 1,
            nextReferralId := nextReferralId2 }, order)

/-- POST /api/orders/:id/cancel (models.js lines 423-439), after
requireAuth. Returns 404 when the order is missing or not owned by the
requester; dereferencing product.type crashes (uncaught TypeError) when
the product of the order no longer resolves; 400 when the product is
not a subscription; otherwise overwrites status, endedAt and
nextBillingAt on the order, unconditionally on its current status. -/
def cancel (st : ServerState) (currentUserId : Nat) (orderId : Nat)
    (now : DateTime) : ApiResult (ServerState × Order) :=
  match findOrder st.orders orderId with
  | none => .err 404 "Order not found"
  | some order =>
    if order.userId ≠ currentUserId then .err 404 "Order not found"
    else
      match findProduct st.products order.productId with
      | none => .crash
      | some product =>
        if product.type ≠ "subscription" then
          .err 400 "Only subscriptions can be cancelled"
        else
          let order2 : Order :=
            { order with
                status := "cancelled",
                endedAt := some now,
                nextBillingAt := none }
          let orders2 :=
            st.orders.map (fun o => if o.id == order.id then order2 else o)
          .ok ({ st with orders := orders2 }, order2)

/-- POST /api/products (models.js lines 267-308), after requireAuth.
Request body fields that may be absent are Options. The handler checks
the store, its ownership, and the truthiness of title, price and type
(a price of 0 is falsy and rejected); it then creates the product with
billing interval defaulted to monthly for subscriptions and nulled
otherwise, trial days nulled unless a truthy value is given on a
subscription (so 0 becomes null), deliverables defaulted to the empty
array when absent, and affiliate percent defaulted to 5 when falsy. -/
def createProduct (st : ServerState) (currentUserId : Nat) (storeId : Nat)
    (title : Option String) (description : Option String) (price : Option Rat)
    (type : Option String) (billingInterval : Option String)
    (trialDays : Option Nat) (deliverables : Option (List Deliv))
    (affiliatePercent : Option Rat) : ApiResult (ServerState × Product) :=
  match findStore st.stores storeId with
  | none => .err 404 "Store not found"
  | some store =>
    if store.ownerId ≠ currentUserId then .err 403 "You do not own this store"
    else if !(jsTruthyStr title && jsTruthyNum price && jsTruthyStr type) then
      .err 400 "Title, price and type are required"
    else
      let ty := type.getD ""
      let product : Product :=
        ⟨st.nextProductId, store.id, title.getD "",
          jsOrStr description "",
          price.getD 0, ty,
          (if ty = "subscription" then some (jsOrStr billingInterval "monthly")
           else none),
          (if ty = "subscription" then
             match trialDays with
             | some n => if n = 0 then none else some n
             | none => none
           else none),
          deliverables.getD [],
          (match affiliatePercent with
           | some q => if q = 0 then 5 else q
           | none => 5)⟩
      .ok ({ st with
              products := st.products ++ [product],
              nextProductId := st.nextProductId + 1 }, product)

/-- PUT /api/store/:id (models.js lines 201-219), after requireAuth.
Each body field is merged with JavaScript x || previous, so an absent
or empty field keeps the stored value; id and ownerId are not among the
assigned fields. -/
def updateStore (st : ServerState) (currentUserId : Nat) (storeId : Nat)
    (name : Option String) (description : Option String)
    (category : Option String) (bannerImage : Option String) :
    ApiResult (ServerState × Store) :=
  match findStore st.stores storeId with
  | none => .err 404 "Store not found"
  | some store =>
    if store.ownerId ≠ currentUserId then
      .err 403 "You are not the owner of this store"
    else
      let store2 : Store :=
        { store with
            name := jsOrStr name store.name,
            description := jsOrStr description store.description,
            category := jsOrStr category store.category,
            bannerImage := jsOrStr bannerImage store.bannerImage }
      let stores2 :=
        st.stores.map (fun s => if s.id == store.id then store2 else s)
      .ok ({ st with stores := stores2 }, store2)

/-- The user summary object returned by the auth endpoints. -/
structure UserSummary where
  id : Nat
  email : String
  name : String
  isSeller : Bool
  referralCode : String
deriving DecidableEq, Repr

/-- models.js response shape of register and login: a token with the
user summary. -/
structure AuthPayload where
  token : String
  user : UserSummary
deriving DecidableEq, Repr

/-- The user summary fields picked by the auth handlers. -/
def summarize (u : User) : UserSummary :=
  ⟨u.id, u.email, u.name, u.isSeller, u.referralCode⟩

/-- User.verify (models.js lines 623-628): null when the email is
unknown, otherwise the user exactly when the password verifies against
the stored hash. vp abstracts verifyPassword (PBKDF2 re-derivation and
comparison), a pure function of the password and the stored string. -/
def verify (vp : String → String → Bool) (users : List User)
    (email password : String) : Option User :=
  match findUserByEmail users email with
  | none => none
  | some u => if vp password u.passwordHash then some u else none

/-- POST /api/auth/login (models.js lines 119-146). freshToken stands
for the randomToken(24) drawn on success. Returns the possibly extended
session table and the response. -/
def login (vp : String → String → Bool) (st : ServerState)
    (email password : String) (freshToken : String) :
    ServerState × ApiResult AuthPayload :=
  if email = "" ∨ password = "" then
    (st, .err 400 "Email and password are required")
  else
    match verify vp st.users email password with
    | none => (st, .err 400 "Invalid email or password")
    | some u =>
      ({ st with sessions := st.sessions ++ [(freshToken, u.id)] },
        .ok ⟨freshToken, summarize u⟩)

/-- requireAuth (models.js lines 46-63), from the extracted bearer token
onward: 401 when the token is not in the session table, 401 when the
bound user no longer exists, otherwise the current user. -/
def authenticate (st : ServerState) (token : String) : ApiResult User :=
  match findSession st.sessions token with
  | none => .err 401 "Invalid or expired session"
  | some e =>
    match findUserById st.users e.2 with
    | none => .err 401 "User not found"
    | some u => .ok u

/-- POST /api/auth/logout (models.js lines 165-169) composed with its
requireAuth middleware: when authentication succeeds the token is
deleted from the session table and success is reported; an
authentication failure is returned unchanged and the table untouched. -/
def logout (st : ServerState) (token : String) :
    ServerState × ApiResult Bool :=
  match authenticate st token with
  | .ok _ =>
    ({ st with sessions := st.sessions.filter (fun e => e.1 ≠ token) },
      .ok true)
  | .err s m => (st, .err s m)
  | .crash => (st, .crash)

/-- A concrete commission function for concrete instances: the exact
rational product price * percent / 100. The claims settled below do not
depend on the commission value in the attributed branch, so any
function works here. -/
def cfn0 : Rat → Rat → Rat := fun price percent => price * percent / 100

/-- A concrete password verifier for concrete instances: the password
verifies iff it equals the stored string. -/
def vp0 : String → String → Bool := fun password stored => password == stored

/-- A seller, owner of the store below, with referral code SELLREF. -/
def sellerU : User :=
  ⟨1, "seller@example.com", "salt:hash1", "Seller", true, "SELLREF"⟩

/-- A buyer with referral code BUYREF. -/
def buyerU : User :=
  ⟨2, "buyer@example.com", "salt:hash2", "Buyer", false, "BUYREF"⟩

/-- The store of the seller. -/
def acmeStore : Store := ⟨1, 1, "Acme", "Tools and more", "tools", ""⟩

/-- A one_time product carrying two license_keys specs: a pool with the
single key K1 and an empty pool. -/
def pKeys : Product :=
  ⟨1, 1, "Keyed", "", 10, "one_time", none, none,
    [.licenseKeysSpec ["K1"], .licenseKeysSpec []], 5⟩

/-- State for the empty-pool checkout: seller, buyer, store, pKeys. -/
def stKeys : ServerState :=
  ⟨[sellerU, buyerU], [acmeStore], [pKeys], [], [], [], 2, 2, 1, 1⟩

/-- A monthly subscription product. -/
def pSub : Product :=
  ⟨1, 1, "Pro Plan", "", 10, "subscription", some "monthly", none, [], 5⟩

/-- An order on pSub already cancelled on 2024-01-01, owned by the buyer. -/
def ordCancelled : Order :=
  ⟨1, 2, 1, 10, "cancelled", none, some ⟨2024, 1, 1, 0⟩, [], none, 0⟩

/-- State holding the already cancelled order on the subscription. -/
def stCancelled : ServerState :=
  ⟨[sellerU, buyerU], [acmeStore], [pSub], [ordCancelled], [], [], 2, 2, 2, 1⟩

/-- State with the monthly subscription product and no orders. -/
def stSub : ServerState :=
  ⟨[sellerU, buyerU], [acmeStore], [pSub], [], [], [], 2, 2, 1, 1⟩

/-- A plain one_time product with no deliverables. -/
def pOne : Product :=
  ⟨1, 1, "Widget", "", 10, "one_time", none, none, [], 20⟩

/-- State with the one_time product and no orders. -/
def stOne : ServerState :=
  ⟨[sellerU, buyerU], [acmeStore], [pOne], [], [], [], 2, 2, 1, 1⟩

/-- State with the store but no products yet. -/
def stStoreOnly : ServerState :=
  ⟨[sellerU, buyerU], [acmeStore], [], [], [], [], 2, 1, 1, 1⟩

/-- The product that createProduct builds from the one_time request of
the C6 witness: interval and trial days nulled, percent defaulted. -/
def createdOneTime : Product :=
  ⟨1, 1, "Widget", "", 10, "one_time", none, none, [], 5⟩

/-- The state after that creation. -/
def stAfterCreate : ServerState :=
  { stStoreOnly with products := [createdOneTime], nextProductId := 2 }

/-- State that already holds an affiliate referral record
(referrer = seller, referred = buyer), as registration with the code
would have left it. -/
def stRef : ServerState :=
  ⟨[sellerU, buyerU], [acmeStore], [pOne], [], [⟨1, 1, 2⟩], [], 2, 2, 1, 2⟩

/-- State whose session table binds the token tok to the seller. -/
def stSess : ServerState :=
  ⟨[sellerU, buyerU], [], [], [], [], [("tok", 1)], 1, 1, 1, 1⟩

/-- C1: the claim states that a checkout of a product carrying a
license_keys spec with an empty pool fails with ResourceExhausted,
creates no Order, commits no key popped for another spec, and never
attaches a deliverable with an undefined key. Evaluating the embedded
handler on such a product refutes every part: the checkout succeeds, an
Order is appended holding a license_key deliverable whose key is
undefined (none), and the key K1 popped from the sibling spec stays
committed on the product. This matches the silent key-pool depletion
that the design notes of the spec flag as a source bug to be
redesigned, so the code, not the claim, is wrong here. -/
theorem checkout_empty_pool_creates_order_with_undefined_key :
    ∃ st2 o, checkout cfn0 stKeys 2 1 none ⟨2024, 5, 10, 0⟩ = .ok (st2, o) ∧
      o.deliverables = [.licenseKey (some "K1"), .licenseKey none] ∧
      st2.orders = stKeys.orders ++ [o] ∧
      (findProduct st2.products 1).map Product.deliverables =
        some [.licenseKeysSpec [], .licenseKeysSpec []] := by
  refine ⟨_, _, rfl, by decide, by decide, by decide⟩

/-- C2 counterexample: the claim states that a second cancel of an
already cancelled Order fails with NotFound or InvalidOperation and
leaves endedAt unchanged. On the embedded handler, cancelling the
already cancelled subscription order (endedAt 2024-01-01) a second time
on 2024-02-02 succeeds and overwrites endedAt with the new time. -/
theorem cancel_of_cancelled_order_succeeds_again :
    ordCancelled.status = "cancelled" ∧
    ordCancelled.endedAt = some ⟨2024, 1, 1, 0⟩ ∧
    (∃ st2 o2, cancel stCancelled 2 1 ⟨2024, 2, 2, 0⟩ = .ok (st2, o2) ∧
      o2.endedAt = some ⟨2024, 2, 2, 0⟩) ∧
    (⟨2024, 1, 1, 0⟩ : DateTime) ≠ ⟨2024, 2, 2, 0⟩ := by
  refine ⟨by decide, by decide, ⟨_, _, rfl, by decide⟩, by decide⟩

/-- C2 amended: a second cancel by the buyer of an already cancelled
subscription Order does not fail: it succeeds again, keeps status
cancelled and nextBillingAt null, and overwrites endedAt with the new
request time; the handler never moves an order out of the cancelled
status (it always writes status cancelled). -/
theorem cancel_cancelled_subscription_overwrites_endedAt
    (st : ServerState) (uid oid : Nat) (now : DateTime)
    (order : Order) (product : Product)
    (ho : findOrder st.orders oid = some order)
    (hu : order.userId = uid)
    (hs : order.status = "cancelled")
    (hp : findProduct st.products order.productId = some product)
    (ht : product.type = "subscription") :
    ∃ st2 o2, cancel st uid oid now = .ok (st2, o2) ∧
      o2.status = "cancelled" ∧ o2.nextBillingAt = none ∧
      o2.endedAt = some now ∧ o2.id = order.id ∧
      st2.orders = st.orders.map (fun o => if o.id == order.id then o2 else o) := by
  simp only [cancel, ho, hu, hp, ht]
  simp only [ne_eq, not_true_eq_false, if_false, String.reduceEq, ite_false]
  exact ⟨_, _, rfl, rfl, rfl, rfl, rfl, rfl⟩

/-- C2 witness: the amended theorem applied to the concrete already
cancelled order, cancelled a second time on 2024-03-03. -/
theorem cancel_cancelled_subscription_overwrites_endedAt_witness :
    ∃ st2 o2, cancel stCancelled 2 1 ⟨2024, 3, 3, 0⟩ = .ok (st2, o2) ∧
      o2.status = "cancelled" ∧ o2.nextBillingAt = none ∧
      o2.endedAt = some ⟨2024, 3, 3, 0⟩ ∧ o2.id = ordCancelled.id ∧
      st2.orders = stCancelled.orders.map
        (fun o => if o.id == ordCancelled.id then o2 else o) :=
  cancel_cancelled_subscription_overwrites_endedAt stCancelled 2 1
    ⟨2024, 3, 3, 0⟩ ordCancelled pSub (by decide) (by decide) (by decide)
    (by decide) (by decide)

/-- C4: for a checkout of a subscription product the resulting order
has nextBillingAt equal to the checkout time advanced by one calendar
month when the billing interval is monthly and by one calendar year
when it is yearly; the calendar arithmetic keeps the day of month (and
the month, and the time of day) whenever the target month is long
enough, and otherwise deterministically carries the excess days into
the following month (so a valid Jan 31 becomes Mar 2 or Mar 3
depending on leap year, and Feb 29 plus a year becomes Mar 1). -/
theorem subscription_checkout_advances_one_calendar_unit
    (cfn : Rat → Rat → Rat) (st : ServerState)
    (uid pid : Nat) (code : Option String) (now : DateTime) (product : Product)
    (hp : findProduct st.products pid = some product)
    (ht : product.type = "subscription") :
    (∃ st2 o, checkout cfn st uid pid code now = .ok (st2, o) ∧
      (product.billingInterval = some "monthly" →
        o.nextBillingAt = some (addOneMonth now)) ∧
      (product.billingInterval = some "yearly" →
        o.nextBillingAt = some (addOneYear now))) ∧
    (validDate now = true →
      (now.day ≤ daysInMonth (yearOfMonthSucc now) (monthSucc now) →
        addOneMonth now =
          ⟨yearOfMonthSucc now, monthSucc now, now.day, now.tod⟩) ∧
      (daysInMonth (yearOfMonthSucc now) (monthSucc now) < now.day →
        addOneMonth now =
          ⟨yearOfMonthSucc now, monthSucc now + 1,
            now.day - daysInMonth (yearOfMonthSucc now) (monthSucc now),
            now.tod⟩) ∧
      (now.day ≤ daysInMonth (now.year + 1) now.month →
        addOneYear now = ⟨now.year + 1, now.month, now.day, now.tod⟩) ∧
      (daysInMonth (now.year + 1) now.month < now.day →
        addOneYear now =
          ⟨now.year + 1, now.month + 1,
            now.day - daysInMonth (now.year + 1) now.month, now.tod⟩)) := by
  constructor
  · simp only [checkout, hp]
    refine ⟨_, _, rfl, ?_, ?_⟩
    · intro hbm
      simp [nextBilling, ht, hbm]
    · intro hby
      simp [nextBilling, ht, hby]
  · intro hv
    simp only [validDate, Bool.and_eq_true, decide_eq_true_eq] at hv
    refine ⟨?_, ?_, ?_, ?_⟩
    · intro hd
      simp [addOneMonth, hd]
    · intro hd
      have hnle : ¬ (now.day ≤ daysInMonth (yearOfMonthSucc now) (monthSucc now)) := by
        omega
      have hm12 : monthSucc now ≠ 12 := by
        intro h12
        have h11 : now.month = 11 := by
          simp only [monthSucc] at h12
          split at h12 <;> omega
        have hle : now.day ≤ daysInMonth now.year now.month := hv.2
        rw [h11] at hle
        have h30 : daysInMonth now.year 11 = 30 := rfl
        rw [h30] at hle
        rw [h12] at hd
        have h31 : daysInMonth (yearOfMonthSucc now) 12 = 31 := rfl
        rw [h31] at hd
        omega
      simp [addOneMonth, hnle, hm12]
    · intro hd
      simp [addOneYear, hd]
    · intro hd
      have hnle : ¬ (now.day ≤ daysInMonth (now.year + 1) now.month) := by omega
      simp [addOneYear, hnle]

/-- C4 witness: checking out the monthly subscription on 2024-01-31
yields nextBillingAt 2024-03-02 (2024 is a leap year), the
deterministic carry of the calendar overflow. -/
theorem subscription_checkout_advances_one_calendar_unit_witness :
    (∃ st2 o, checkout cfn0 stSub 2 1 none ⟨2024, 1, 31, 0⟩ = .ok (st2, o) ∧
      o.nextBillingAt = some ⟨2024, 3, 2, 0⟩) ∧
    validDate ⟨2024, 1, 31, 0⟩ = true := by
  obtain ⟨⟨st2, o, hok, hm, hy⟩, hcal⟩ :=
    subscription_checkout_advances_one_calendar_unit cfn0 stSub 2 1 none
      ⟨2024, 1, 31, 0⟩ pSub (by decide) (by decide)
  refine ⟨⟨st2, o, hok, ?_⟩, by decide⟩
  rw [hm (by decide)]
  decide

/-- C5: when the supplied referral code resolves to the buyer themself,
attribution is rejected: the created order carries no affiliate
referrer and zero commission, and the referral ledger is unchanged. -/
theorem self_referral_checkout_rejected
    (cfn : Rat → Rat → Rat) (st : ServerState)
    (uid pid : Nat) (code : String) (now : DateTime) (product : Product) (u : User)
    (hp : findProduct st.products pid = some product)
    (hc : code ≠ "")
    (hr : findUserByReferralCode st.users code = some u)
    (hu : u.id = uid) :
    ∃ st2 o, checkout cfn st uid pid (some code) now = .ok (st2, o) ∧
      o.affiliateReferrerId = none ∧ o.affiliateCommission = 0 ∧
      st2.referrals = st.referrals := by
  have ha : attributedReferrer st.users uid (some code) = none := by
    simp [attributedReferrer, hc, hr, hu]
  simp only [checkout, hp, ha]
  exact ⟨_, _, rfl, rfl, rfl, rfl⟩

/-- C5 witness: the buyer checks out with their own code BUYREF. -/
theorem self_referral_checkout_rejected_witness :
    ∃ st2 o, checkout cfn0 stOne 2 1 (some "BUYREF") ⟨2024, 6, 1, 0⟩ =
        .ok (st2, o) ∧
      o.affiliateReferrerId = none ∧ o.affiliateCommission = 0 ∧
      st2.referrals = stOne.referrals :=
  self_referral_checkout_rejected cfn0 stOne 2 1 "BUYREF" ⟨2024, 6, 1, 0⟩
    pOne buyerU (by decide) (by decide) (by decide) (by decide)

/-- C6: a product created through the products endpoint with kind
one_time has null billingInterval and null trialDays whatever the
request supplied for those fields, and a checkout of any one_time
product yields an order with null nextBillingAt. -/
theorem one_time_product_null_billing_fields :
    (∀ (st : ServerState) (uid sid : Nat)
      (title description : Option String) (price : Option Rat)
      (billingInterval : Option String) (trialDays : Option Nat)
      (dels : Option (List Deliv)) (ap : Option Rat)
      (st2 : ServerState) (p : Product),
      createProduct st uid sid title description price (some "one_time")
        billingInterval trialDays dels ap = .ok (st2, p) →
      p.billingInterval = none ∧ p.trialDays = none ∧ p.type = "one_time") ∧
    (∀ (cfn : Rat → Rat → Rat) (st : ServerState) (uid pid : Nat)
      (code : Option String) (now : DateTime) (product : Product)
      (st2 : ServerState) (o : Order),
      findProduct st.products pid = some product →
      product.type = "one_time" →
      checkout cfn st uid pid code now = .ok (st2, o) →
      o.nextBillingAt = none) := by
  constructor
  · intro st uid sid title description price billingInterval trialDays dels ap
      st2 p h
    simp only [createProduct] at h
    split at h
    · exact absurd h (by simp)
    · split at h
      · exact absurd h (by simp)
      · split at h
        · exact absurd h (by simp)
        · rw [ApiResult.ok.injEq, Prod.mk.injEq] at h
          rw [← h.2]
          refine ⟨?_, ?_, ?_⟩ <;> simp
  · intro cfn st uid pid code now product st2 o hp ht h
    simp only [checkout, hp] at h
    rw [ApiResult.ok.injEq, Prod.mk.injEq] at h
    have hnb : nextBilling product now = none := by
      simp [nextBilling, ht]
    rw [← h.2, hnb]

/-- C6 witness: a one_time creation request that supplies a billing
interval and a trial-day count still yields null fields, and a
checkout of the one_time product yields null nextBillingAt. -/
theorem one_time_product_null_billing_fields_witness :
    createProduct stStoreOnly 1 1 (some "Widget") none (some 10)
        (some "one_time") (some "weekly") (some 14) none none =
      .ok (stAfterCreate, createdOneTime) ∧
    createdOneTime.billingInterval = none ∧
    createdOneTime.trialDays = none ∧
    (∃ st2 o, checkout cfn0 stOne 2 1 none ⟨2024, 6, 15, 0⟩ = .ok (st2, o) ∧
      o.nextBillingAt = none) := by
  have h1 : createProduct stStoreOnly 1 1 (some "Widget") none (some 10)
      (some "one_time") (some "weekly") (some 14) none none =
      .ok (stAfterCreate, createdOneTime) := by decide
  obtain ⟨hbi, htd, _⟩ := one_time_product_null_billing_fields.1 stStoreOnly
    1 1 (some "Widget") none (some 10) (some "weekly") (some 14) none none
    stAfterCreate createdOneTime h1
  refine ⟨h1, hbi, htd, ?_⟩
  refine ⟨_, _, rfl, ?_⟩
  exact one_time_product_null_billing_fields.2 cfn0 stOne 2 1 none
    ⟨2024, 6, 15, 0⟩ pOne _ _ (by decide) (by decide) rfl

/-- Helper: after deleting a token from the session table, looking the
token up finds nothing. -/
lemma find_session_filter (l : List (String × Nat)) (t : String) :
    findSession (l.filter (fun e => e.1 ≠ t)) t = none := by
  simp only [findSession, List.find?_eq_none, List.mem_filter]
  intro e he
  simp only [decide_eq_true_eq] at he
  simp [he.2]

/-- Helper: a falsy request field leaves the stored value. -/
lemma jsOrStr_falsy (x : Option String) (d : String) :
    jsTruthyStr x = false → jsOrStr x d = d := by
  cases x with
  | none => intro _; rfl
  | some s =>
    intro h
    simp only [jsTruthyStr, decide_eq_false_iff_not, not_not] at h
    simp [jsOrStr, h]

/-- Helper: the merge of a request field with a stored value is empty
only when the stored value already was. -/
lemma jsOrStr_eq_empty (x : Option String) (d : String) :
    jsOrStr x d = "" → d = "" := by
  cases x with
  | none => exact id
  | some s =>
    simp only [jsOrStr]
    split
    · exact id
    · intro h
      exact absurd h (by assumption)

/-- C7 counterexample: the claim states that logout always succeeds,
also for an already absent token. On the embedded handler a first
logout of the live token tok succeeds, but a second logout with the
same, now absent, token is rejected by the requireAuth middleware with
a 401 error and does not report success. -/
theorem second_logout_fails_with_401 :
    (logout stSess "tok").2 = .ok true ∧
    logout (logout stSess "tok").1 "tok" =
      ((logout stSess "tok").1, .err 401 "Invalid or expired session") := by
  exact ⟨by decide, by decide⟩

/-- C7 amended: a logout with a token that is a live session bound to
an existing user removes the token from the session table and reports
success, and the token is absent afterwards; a logout with a token
absent from the session table fails with a 401 error (it does not
succeed), because the logout endpoint sits behind requireAuth. -/
theorem logout_removes_live_session_token (st : ServerState) (token : String) :
    (∀ uid u, findSession st.sessions token = some (token, uid) →
      findUserById st.users uid = some u →
      logout st token =
        ({ st with sessions := st.sessions.filter (fun e => e.1 ≠ token) },
          .ok true) ∧
      findSession (st.sessions.filter (fun e => e.1 ≠ token)) token = none) ∧
    (findSession st.sessions token = none →
      logout st token = (st, .err 401 "Invalid or expired session")) := by
  constructor
  · intro uid u hse hus
    refine ⟨?_, find_session_filter _ _⟩
    simp only [logout, authenticate, hse, hus]
  · intro hse
    simp only [logout, authenticate, hse]

/-- C7 witness: the amended theorem applied to the live token tok bound
to the seller. -/
theorem logout_removes_live_session_token_witness :
    logout stSess "tok" =
      ({ stSess with
          sessions := stSess.sessions.filter (fun e => e.1 ≠ "tok") },
        .ok true) ∧
    findSession (stSess.sessions.filter (fun e => e.1 ≠ "tok")) "tok" = none :=
  (logout_removes_live_session_token stSess "tok").1 1 sellerU
    (by decide) (by decide)

/-- C8: a login attempt with an unknown email and a login attempt with
a known email but a wrong password produce identical responses, both
the 400 error with body Invalid email or password, so the response does
not reveal whether the email is registered. -/
theorem login_failure_responses_identical
    (vp : String → String → Bool) (st : ServerState)
    (email1 pw1 email2 pw2 t1 t2 : String) (u : User)
    (h1e : email1 ≠ "") (h1p : pw1 ≠ "")
    (h1 : findUserByEmail st.users email1 = none)
    (h2e : email2 ≠ "") (h2p : pw2 ≠ "")
    (h2 : findUserByEmail st.users email2 = some u)
    (h2v : vp pw2 u.passwordHash = false) :
    (login vp st email1 pw1 t1).2 = (login vp st email2 pw2 t2).2 ∧
    (login vp st email1 pw1 t1).2 = .err 400 "Invalid email or password" := by
  simp [login, verify, h1, h2, h2v, h1e, h1p, h2e, h2p]

/-- C8 witness: an unregistered email versus the buyer email with a
wrong password, under the concrete equality verifier. -/
theorem login_failure_responses_identical_witness :
    (login vp0 stOne "ghost@example.com" "pw" "t1").2 =
      (login vp0 stOne "buyer@example.com" "wrong" "t2").2 ∧
    (login vp0 stOne "ghost@example.com" "pw" "t1").2 =
      .err 400 "Invalid email or password" :=
  login_failure_responses_identical vp0 stOne "ghost@example.com" "pw"
    "buyer@example.com" "wrong" "t1" "t2" buyerU (by decide) (by decide)
    (by decide) (by decide) (by decide) (by decide) (by decide)

/-- C9: every checkout whose referral code resolves to a user other
than the buyer appends a new affiliate referral record for that pair,
with no check against existing records, so the count of records where
that user is referrer grows by one on every such purchase. -/
theorem checkout_referral_appends_new_record
    (cfn : Rat → Rat → Rat) (st : ServerState)
    (uid pid : Nat) (code : String) (now : DateTime) (product : Product) (r : User)
    (hp : findProduct st.products pid = some product)
    (hc : code ≠ "")
    (hr : findUserByReferralCode st.users code = some r)
    (hne : r.id ≠ uid) :
    ∃ st2 o, checkout cfn st uid pid (some code) now = .ok (st2, o) ∧
      st2.referrals = st.referrals ++ [⟨st.nextReferralId, r.id, uid⟩] ∧
      o.affiliateReferrerId = some r.id ∧
      (st2.referrals.filter (fun x => x.referrerId == r.id)).length =
        (st.referrals.filter (fun x => x.referrerId == r.id)).length + 1 := by
  have ha : attributedReferrer st.users uid (some code) = some r := by
    simp [attributedReferrer, hc, hr, hne]
  simp only [checkout, hp, ha]
  refine ⟨_, _, rfl, rfl, rfl, ?_⟩
  simp [List.filter_append]

/-- C9 witness: the state already holds the referral record (seller,
buyer) left by registration, and a checkout by the buyer with the
seller code appends a second record for the same pair, raising the
referrer count of the seller from 1 to 2. -/
theorem checkout_referral_appends_new_record_witness :
    (∃ st2 o, checkout cfn0 stRef 2 1 (some "SELLREF") ⟨2024, 1, 1, 0⟩ =
        .ok (st2, o) ∧
      st2.referrals = stRef.referrals ++ [⟨stRef.nextReferralId, sellerU.id, 2⟩] ∧
      o.affiliateReferrerId = some sellerU.id ∧
      (st2.referrals.filter (fun x => x.referrerId == sellerU.id)).length =
        (stRef.referrals.filter (fun x => x.referrerId == sellerU.id)).length
          + 1) ∧
    stRef.referrals = [⟨1, 1, 2⟩] :=
  ⟨checkout_referral_appends_new_record cfn0 stRef 2 1 "SELLREF"
      ⟨2024, 1, 1, 0⟩ pOne sellerU (by decide) (by decide) (by decide)
      (by decide),
    by decide⟩

/-- C10: a store update by its owner merges each body field with
JavaScript x or previous: an absent or empty field keeps the stored
value and a provided non-empty field replaces only its own value; id
and ownerId are never assigned; and no stored non-empty field can
become the empty string through this operation. -/
theorem update_store_keeps_unspecified_fields
    (st : ServerState) (uid sid : Nat)
    (name description category bannerImage : Option String) (store : Store)
    (hs : findStore st.stores sid = some store)
    (ho : store.ownerId = uid) :
    ∃ st2 s2, updateStore st uid sid name description category bannerImage =
        .ok (st2, s2) ∧
      s2.id = store.id ∧ s2.ownerId = store.ownerId ∧
      s2.name = jsOrStr name store.name ∧
      s2.description = jsOrStr description store.description ∧
      s2.category = jsOrStr category store.category ∧
      s2.bannerImage = jsOrStr bannerImage store.bannerImage ∧
      (jsTruthyStr name = false → s2.name = store.name) ∧
      (s2.name = "" → store.name = "") ∧
      (s2.description = "" → store.description = "") ∧
      (s2.category = "" → store.category = "") ∧
      (s2.bannerImage = "" → store.bannerImage = "") := by
  simp only [updateStore, hs, ho]
  simp only [ne_eq, not_true_eq_false, if_false, ite_false]
  refine ⟨_, _, rfl, rfl, rfl, rfl, rfl, rfl, rfl,
    fun h => jsOrStr_falsy _ _ h, fun h => jsOrStr_eq_empty _ _ h,
    fun h => jsOrStr_eq_empty _ _ h, fun h => jsOrStr_eq_empty _ _ h,
    fun h => jsOrStr_eq_empty _ _ h⟩

/-- C10 witness: the owner updates the store with a new name, an empty
description and no category; name changes, description and category
keep their stored values. -/
theorem update_store_keeps_unspecified_fields_witness :
    ∃ st2 s2, updateStore stStoreOnly 1 1 (some "NewName") (some "") none
        (some "img.png") = .ok (st2, s2) ∧
      s2.id = acmeStore.id ∧ s2.ownerId = acmeStore.ownerId ∧
      s2.name = jsOrStr (some "NewName") acmeStore.name ∧
      s2.description = jsOrStr (some "") acmeStore.description ∧
      s2.category = jsOrStr none acmeStore.category ∧
      s2.bannerImage = jsOrStr (some "img.png") acmeStore.bannerImage ∧
      (jsTruthyStr (some "NewName") = false → s2.name = acmeStore.name) ∧
      (s2.name = "" → acmeStore.name = "") ∧
      (s2.description = "" → acmeStore.description = "") ∧
      (s2.category = "" → acmeStore.category = "") ∧
      (s2.bannerImage = "" → acmeStore.bannerImage = "") :=
  update_store_keeps_unspecified_fields stStoreOnly 1 1 (some "NewName")
    (some "") none (some "img.png") acmeStore (by decide) (by decide)
